import Mathlib

/-!
Verification of `train_meta_learning.py` (meta-gradient pseudo-label refinement
trainer).  The script's numeric tensors are embedded as lists of rationals; the
neural network, softmax/KL primitives and the autograd engine are external
collaborators and appear as opaque function parameters; the training loop, the
pseudo-label projection, the learning-rate schedule, the checkpoint record and
the evaluation pass are embedded from the source line by line.  `utils.py`
(AverageMeter, save_checkpoint) is not part of the sources; those two helpers
are modelled from the specification (§4.4, §4.5).
-/

namespace MetaPL

/-- A 2-d tensor (a batch of rows) of exact rationals. -/
abbrev Tensor := List (List ℚ)

/-- The model plus classifier parameter bundle, together with the optimizer's
momentum buffers, treated as one opaque serializable value. -/
abbrev Params := List ℚ

/-- Modelled from the spec (§4.5): `utils.AverageMeter` is not under the given
sources.  Per named metric it keeps the latest value, a running sum and a
running count; `update value weight` folds `weight` occurrences of `value`
into the statistics. -/
structure AverageMeter where
  val : ℚ
  sum : ℚ
  count : ℕ
deriving DecidableEq

/-- A fresh, empty aggregator (`AverageMeter()`). -/
def AverageMeter.init : AverageMeter := ⟨0, 0, 0⟩

/-- Fold `n` occurrences of value `v` into the running statistics. -/
def AverageMeter.update (m : AverageMeter) (v : ℚ) (n : ℕ) : AverageMeter :=
  ⟨v, m.sum + v * n, m.count + n⟩

/-- Running mean of an aggregator. -/
def AverageMeter.avg (m : AverageMeter) : ℚ := m.sum / (m.count : ℚ)

/-! ## Pseudo-label projection (train_meta_learning.py lines 126–141) -/

/-- `torch.clamp(x, min=0., max=1.)` on one entry (line 131). -/
def clamp01 (x : ℚ) : ℚ := max 0 (min 1 x)

/-- `torch.relu_` on one entry (lines 134 and 137). -/
def relu (x : ℚ) : ℚ := max 0 x

/-- The in-place meta-gradient update `unlabel_pseudo_gt -= inner_lr * unlabel_grad`
(line 128), on one row. -/
def updateRow (ilr : ℚ) (t g : List ℚ) : List ℚ :=
  List.zipWith (fun a b => a - ilr * b) t g

/-- Division of a row by its own sum, i.e. `x /= torch.sum(x, dim=1, keepdim=True)`
restricted to one row (lines 132 and 135).  Division by zero follows Lean's
rational convention `x / 0 = 0` (the float code produces NaN there; either way
the row is not a probability distribution). -/
def normalizeRow (r : List ℚ) : List ℚ := r.map (fun x => x / r.sum)

/-- One row of the projection dispatch of lines 130–137: the branch on
`args.type` applied after the in-place update of line 128.  `args.type` is a
string with argparse choices `'0' '1' '2' '3'` (line 28); for `'3'` no branch
fires and the updated row is left as is. -/
def refineRow (ty : String) (ilr : ℚ) (t g : List ℚ) : List ℚ :=
  let u := updateRow ilr t g
  if ty = "0" then normalizeRow (u.map clamp01)
  else if ty = "1" then normalizeRow (u.map relu)
  else if ty = "2" then u.map relu
  else u

/-- The whole-tensor update and projection: rows are independent because the
clamp/relu act elementwise and the sums are taken with `dim=1`. -/
def refine (ty : String) (ilr : ℚ) (t g : Tensor) : Tensor :=
  List.zipWith (refineRow ty ilr) t g

/-- The intermediate clipped row: the value of `unlabel_pseudo_gt` between the
clamp/relu line and the renormalization line, for policies `'0'` and `'1'`. -/
def clippedRow (ty : String) (ilr : ℚ) (t g : List ℚ) : List ℚ :=
  if ty = "0" then (updateRow ilr t g).map clamp01
  else (updateRow ilr t g).map relu

/-- The argparse `choices` list of `--type` (line 28). -/
def typeChoices : List String := ["0", "1", "2", "3"]

/-! Spec-worded restatements of the three projection policies (§4.1 item 6),
kept separate from the source-derived `refineRow` so that the two can be
compared. -/

/-- Spec wording: divide each entry of a row by the row's sum. -/
def specRenormalize (r : List ℚ) : List ℚ := r.map (fun x => x / r.sum)

/-- Spec wording for policy 0: clamp entries to [0,1], then renormalize the
row to sum to 1. -/
def specPolicy0 (r : List ℚ) : List ℚ :=
  specRenormalize (r.map (fun x => if x < 0 then 0 else if 1 < x then 1 else x))

/-- Spec wording for policy 1: clip negative entries to 0, then renormalize
the row to sum to 1. -/
def specPolicy1 (r : List ℚ) : List ℚ :=
  specRenormalize (r.map (fun x => if x < 0 then 0 else x))

/-- Spec wording for policy 2: clip negative entries to 0, no renormalization. -/
def specPolicy2 (r : List ℚ) : List ℚ :=
  r.map (fun x => if x < 0 then 0 else x)

/-! ## Learning-rate schedule (lines 73–74 and 152) -/

/-- Number of milestones already reached at scheduler epoch `e` (PyTorch's
`bisect_right` over a sorted milestone list: milestones `m ≤ e` count). -/
def countMilestones (ms : List ℕ) (e : ℕ) : ℕ :=
  (ms.filter (fun m => m ≤ e)).length

/-- `MultiStepLR` semantics (external library, modelled from its documented
behaviour): the group learning rate after `e` scheduler epochs is the base
rate decayed by `gamma` once per reached milestone. -/
def multiStepLR (lr0 gamma : ℚ) (ms : List ℕ) (e : ℕ) : ℚ :=
  lr0 * gamma ^ countMilestones ms e

/-- The milestone list of line 74: `[total_steps//2, total_steps*3//4]`. -/
def milestones (total : ℕ) : List ℕ := [total / 2, total * 3 / 4]

/-- The learning rate the optimizer group holds during loop iteration `s` of an
uninterrupted run: `lr_scheduler.step()` (line 152) has run once per finished
iteration, so the scheduler epoch at the top of iteration `s` is `s`. -/
def lrAtStep (lr0 gamma : ℚ) (total s : ℕ) : ℚ :=
  multiStepLR lr0 gamma (milestones total) s

/-- The learning rate a resumed run holds during global iteration `s ≥ S`,
for a checkpoint recorded at step `S`.  Lines 73–74 construct the scheduler
before the resume block and nothing of the scheduler is restored from the
checkpoint, so its epoch counter restarts at zero; `optimizer.load_state_dict`
(line 85) restores the group rate saved with the optimizer, which at save time
(after `S` scheduler steps) was `lrAtStep lr0 gamma total S`. -/
def resumedLrAt (lr0 gamma : ℚ) (total S s : ℕ) : ℚ :=
  multiStepLR (lrAtStep lr0 gamma total S) gamma (milestones total) (s - S)

/-! ## Checkpoint record and resume block (lines 77–88 and 199–205) -/

/-- A value stored under one key of the checkpoint dictionary. -/
inductive CkptVal where
  | nat (n : ℕ)
  | rat (q : ℚ)
  | blob (tag : String)
deriving DecidableEq

/-- The dictionary literal passed to `save_checkpoint` (lines 199–205), in
source order: step+1, model state, classifier state, best accuracy, optimizer
state — and nothing else. -/
def savedCheckpoint (step : ℕ) (bestAcc : ℚ) (modelSd classifierSd optimSd : String) :
    List (String × CkptVal) :=
  [("step", .nat step), ("model", .blob modelSd), ("classifier", .blob classifierSd),
   ("best_acc", .rat bestAcc), ("optimizer", .blob optimSd)]

/-- Dictionary subscription `checkpoint[k]`: a missing key raises `KeyError k`. -/
def lookupKey (ck : List (String × CkptVal)) (k : String) : Except String CkptVal :=
  match ck.lookup k with
  | some v => .ok v
  | none => .error k

/-- The components the resume block extracts from a loaded checkpoint. -/
structure ResumeData where
  startStep : CkptVal
  bestAcc : CkptVal
  modelSd : CkptVal
  classifierSd : CkptVal
  optimSd : CkptVal
deriving DecidableEq

/-- The resume block, lines 80–86, as the sequence of dictionary reads it
performs on the loaded checkpoint: `step` (line 81), `best_acc` (line 82),
`model` (line 83), `classifier` (line 84), `optimizer` (line 85), and finally
`epoch` inside the log message of line 86. -/
def resumeBlock (ck : List (String × CkptVal)) : Except String ResumeData := do
  let step ← lookupKey ck "step"
  let best ← lookupKey ck "best_acc"
  let m ← lookupKey ck "model"
  let c ← lookupKey ck "classifier"
  let o ← lookupKey ck "optimizer"
  let _epoch ← lookupKey ck "epoch"
  pure ⟨step, best, m, c, o⟩

/-- Modelled from the spec (§4.4): `utils.save_checkpoint` is not under the
given sources.  The durable store keeps a "latest" bundle, overwritten on
every save, and a "best" bundle, overwritten only when the save is flagged
best. -/
structure CheckpointStore where
  latest : Option (List (String × CkptVal))
  best : Option (List (String × CkptVal))
deriving DecidableEq

/-- Modelled from the spec (§4.4): persist a bundle as "latest" and, when
`isBest`, also as "best". -/
def saveCheckpoint (ck : List (String × CkptVal)) (isBest : Bool)
    (st : CheckpointStore) : CheckpointStore :=
  ⟨some ck, if isBest then some ck else st.best⟩

/-! ## One training iteration (lines 96–157) -/

/-- The external differentiable-model capability (spec §2): the network
forward passes, the softmax/KL primitives and the autograd engine.  Every
member is a pure function of the data the corresponding source expression
can observe; none of them receives the unlabeled ground truth. -/
structure Autodiff where
  /-- `classifier(model(x))` at the current parameters (line 114). -/
  forward : Params → Tensor → Tensor
  /-- `F.softmax(·, dim=1)` on one row (line 115). -/
  softmaxRow : List ℚ → List ℚ
  /-- `F.log_softmax` / `torch.log_softmax` on one row (lines 117 and 141). -/
  logSoftmaxRow : List ℚ → List ℚ
  /-- `F.kl_div(·, ·, reduction='batchmean')` (lines 117 and 141). -/
  klDiv : Tensor → Tensor → ℚ
  /-- `classifier(model(x, inner_lr), inner_lr)`: the fast-weights forward
  composing the simulated inner update of line 118 (line 121). -/
  fastForward : Params → ℚ → Tensor → Tensor
  /-- `F.cross_entropy(pred, gt, reduction='mean')` (line 122). -/
  crossEntropy : Tensor → List ℕ → ℚ
  /-- `torch.autograd.grad(loss2, (unlabel_pseudo_gt,))` (line 123): the meta
  gradient, a function of the current parameters, the labeled predictions and
  labels, the inner rate, and the unlabeled logits that built the inner graph. -/
  gradPseudo : Params → Tensor → List ℕ → ℚ → Tensor → Tensor
  /-- `optimizer.zero_grad(); loss.backward(); optimizer.step()`
  (lines 149–151): the committed SGD update.  The graph of `loss` (line 141)
  reaches only the unlabeled logits and the detached projected target, so the
  update is a function of those and of the parameter/momentum bundle. -/
  sgdStep : Params → Tensor → Tensor → Params

/-- `.detach()` severs gradient flow; on values it is the identity. -/
def detach (t : Tensor) : Tensor := t

/-- What one iteration computes: the projected pseudo-label tensor of
lines 126–137, the labeled (outer) loss of line 122, the final unsupervised
loss of line 141, and the parameter/momentum bundle after the committed
optimizer step of line 151. -/
structure IterResult where
  pseudoGt : Tensor
  labelLoss : ℚ
  loss : ℚ
  params : Params
deriving DecidableEq

/-- Lines 113–151 of the loop body: forward the unlabeled batch, take the
softmax as the pseudo-label leaf, run the fast-weights labeled forward, take
the meta gradient, update and project the pseudo labels, recompute the KL
loss against the detached projection, and commit one SGD step. -/
def trainIterationCore (oc : Autodiff) (ty : String) (ilr : ℚ) (ps : Params)
    (labelImg : Tensor) (labelGt : List ℕ)
    (unlabelImg : Tensor) (unlabelGt : List ℕ) : IterResult :=
  let unlabelPred := oc.forward ps unlabelImg
  let pseudo0 := unlabelPred.map oc.softmaxRow
  let labelPred := oc.fastForward ps ilr labelImg
  let labelLoss := oc.crossEntropy labelPred labelGt
  let grad := oc.gradPseudo ps labelPred labelGt ilr unlabelPred
  let pseudoGt := refine ty ilr pseudo0 grad
  let loss := oc.klDiv (unlabelPred.map oc.logSoftmaxRow) (detach pseudoGt)
  let ps2 := oc.sgdStep ps unlabelPred (detach pseudoGt)
  ⟨pseudoGt, labelLoss, loss, ps2⟩

/-- Static configuration read inside the loop. -/
structure Config where
  lr : ℚ
  lrDecay : ℚ
  multiplier : ℚ
  fixInner : Bool
  totalSteps : ℕ
  testFreq : ℕ
  ty : String

/-- The mutable training state of `main`: the loop counter, the scheduler's
epoch counter, the parameter/momentum bundle, the six AverageMeters created
at line 91, the best accuracy of line 92, the checkpoint store and the count
of completed evaluation passes. -/
structure LoopState where
  step : ℕ
  schedEpoch : ℕ
  params : Params
  dataTimes : AverageMeter
  batchTimes : AverageMeter
  labelLosses : AverageMeter
  unlabelLosses : AverageMeter
  labelAcc : AverageMeter
  unlabelAcc : AverageMeter
  bestAcc : ℚ
  store : CheckpointStore
  testsRun : ℕ

/-- Lines 91–92 of `main`: six fresh AverageMeters and `best_acc = 0.` —
a local assignment that shadows the module-level `best_acc` the resume block
set, whatever the checkpoint contained. -/
def mainInitState (startStep : ℕ) (ps : Params) (store : CheckpointStore) : LoopState :=
  { step := startStep, schedEpoch := 0, params := ps,
    dataTimes := AverageMeter.init, batchTimes := AverageMeter.init,
    labelLosses := AverageMeter.init, unlabelLosses := AverageMeter.init,
    labelAcc := AverageMeter.init, unlabelAcc := AverageMeter.init,
    bestAcc := 0, store := store, testsRun := 0 }

/-- Lines 109–110: the inner learning rate, either fixed
(`args.lr * args.multiplier`) or the optimizer's current rate times the
multiplier; the optimizer's current rate is the scheduled rate at the
scheduler's epoch counter. -/
def innerLrOf (cfg : Config) (st : LoopState) : ℚ :=
  if cfg.fixInner then cfg.lr * cfg.multiplier
  else multiStepLR cfg.lr cfg.lrDecay (milestones cfg.totalSteps) st.schedEpoch * cfg.multiplier

/-- The executed body of the training loop (lines 98–157).  After the
optimizer and scheduler steps, line 155 prints the elapsed time and line 156
is an unconditional `continue`: lines 159–209 — accuracy computation, meter
updates, tensorboard writes, periodic logging, `test()`, `save_checkpoint`
and the meter reset — are never reached. -/
def mainIteration (oc : Autodiff) (cfg : Config)
    (labelImg : Tensor) (labelGt : List ℕ) (unlabelImg : Tensor) (unlabelGt : List ℕ)
    (st : LoopState) : LoopState :=
  let ilr := innerLrOf cfg st
  let r := trainIterationCore oc cfg.ty ilr st.params labelImg labelGt unlabelImg unlabelGt
  { st with step := st.step + 1, schedEpoch := st.schedEpoch + 1, params := r.params }

/-- The guard of line 192: `(step + 1) % args.test_freq == 0 or step == args.total_steps - 1`. -/
def isTestBoundary (testFreq totalSteps s : ℕ) : Bool :=
  (s + 1) % testFreq == 0 || s == totalSteps - 1

/-- Lines 193–209, the dead test-and-save block, embedded as if it executed,
with the accuracy `test()` would return supplied as `testAcc`: compare with
`best_acc`, save the checkpoint bundle (marking it best when strictly
better), and then execute line 207 — which binds two NEW local names
`losses` and `acc` to fresh AverageMeters and leaves all six of `main`'s
training meters untouched. -/
def testAndSaveBlock (st : LoopState) (testAcc : ℚ) : LoopState :=
  let isBest := st.bestAcc < testAcc
  let best := if isBest then testAcc else st.bestAcc
  let ck := savedCheckpoint (st.step + 1) best "model_state" "classifier_state" "optimizer_state"
  let store := saveCheckpoint ck isBest st.store
  let lossesLocal := AverageMeter.init
  let accLocal := AverageMeter.init
  { st with bestAcc := best, store := store, testsRun := st.testsRun + 1 }

/-! ## The evaluation pass `test()` (lines 212–245) -/

/-- The `train()` / `eval()` switch of a torch module. -/
inductive Mode where
  | train
  | eval
deriving DecidableEq

/-- The modes of the two module-level networks touched by `test()`. -/
structure Modes where
  model : Mode
  classifier : Mode
deriving DecidableEq

/-- What evaluating one held-out batch yields: the mean loss, the top-1
accuracy and the batch size (lines 225–229).  Evaluation of a batch may
raise (e.g. a device error or a NaN guard), which `Except.error` records. -/
structure BatchStats where
  loss : ℚ
  top1 : ℚ
  size : ℕ

/-- The `for i, (data, target) in enumerate(test_loader)` loop of
lines 220–239: fold the loss and accuracy meters over the batches; an
exception from any batch propagates immediately. -/
def runTestBatches (evalBatch : ℕ → Except String BatchStats) :
    List ℕ → AverageMeter → AverageMeter → Except String ℚ
  | [], _, accM => .ok accM.avg
  | b :: bs, lossM, accM =>
    match evalBatch b with
    | .error e => .error e
    | .ok s => runTestBatches evalBatch bs (lossM.update s.loss s.size) (accM.update s.top1 s.size)

/-- The whole of `test()` (lines 212–245): switch both networks to `eval`
(lines 215–216), run the batch loop, and on NORMAL completion only switch
both back to `train` (lines 243–244) and return the accuracy average.  There
is no try/finally in the source: when a batch raises, the exception
propagates with both networks still in `eval` mode. -/
def testRun (evalBatch : ℕ → Except String BatchStats) (batches : List ℕ) :
    Modes × Except String ℚ :=
  let evalModes : Modes := ⟨.eval, .eval⟩
  match runTestBatches evalBatch batches AverageMeter.init AverageMeter.init with
  | .error e => (evalModes, .error e)
  | .ok a => (⟨.train, .train⟩, .ok a)

/-! ## Helper lemmas -/

lemma clamp01_eq_ite (x : ℚ) : clamp01 x = if x < 0 then 0 else if 1 < x then 1 else x := by
  unfold clamp01
  rcases lt_or_le x 0 with h | h
  · rw [if_pos h, min_eq_right (by linarith), max_eq_left h.le]
  · rw [if_neg (not_lt.mpr h)]
    rcases lt_or_le 1 x with h1 | h1
    · rw [if_pos h1, min_eq_left h1.le, max_eq_right (by norm_num)]
    · rw [if_neg (not_lt.mpr h1), min_eq_right h1, max_eq_right h]

lemma relu_eq_ite (x : ℚ) : relu x = if x < 0 then 0 else x := by
  unfold relu
  rcases lt_or_le x 0 with h | h
  · rw [if_pos h, max_eq_left h.le]
  · rw [if_neg (not_lt.mpr h), max_eq_right h]

lemma sum_map_div (l : List ℚ) (s : ℚ) : (l.map (fun x => x / s)).sum = l.sum / s := by
  induction l with
  | nil => simp
  | cons a t ih => simp [ih, add_div]

lemma normalizeRow_sum (r : List ℚ) (h : r.sum ≠ 0) : (normalizeRow r).sum = 1 := by
  rw [normalizeRow, sum_map_div, div_self h]

lemma normalizeRow_mem_unit (r : List ℚ) (hnn : ∀ x ∈ r, 0 ≤ x) (hpos : 0 < r.sum) :
    ∀ y ∈ normalizeRow r, 0 ≤ y ∧ y ≤ 1 := by
  intro y hy
  rcases List.mem_map.mp hy with ⟨x, hx, rfl⟩
  constructor
  · exact div_nonneg (hnn x hx) hpos.le
  · rw [div_le_one hpos]
    exact List.single_le_sum hnn x hx

lemma clippedRow_nonneg (ty : String) (ilr : ℚ) (t g : List ℚ) :
    ∀ x ∈ clippedRow ty ilr t g, 0 ≤ x := by
  intro x hx
  unfold clippedRow at hx
  split at hx <;> rcases List.mem_map.mp hx with ⟨a, _, rfl⟩
  · exact le_max_left 0 _
  · exact le_max_left 0 _

lemma refineRow_eq_normalize_clipped (ty : String) (hty : ty = "0" ∨ ty = "1")
    (ilr : ℚ) (t g : List ℚ) :
    refineRow ty ilr t g = normalizeRow (clippedRow ty ilr t g) := by
  rcases hty with rfl | rfl <;> simp [refineRow, clippedRow]

lemma tyOneNeZero : ¬ ("1" : String) = "0" := by decide

lemma tyThreeNeZero : ¬ ("3" : String) = "0" := by decide

lemma tyThreeNeOne : ¬ ("3" : String) = "1" := by decide

lemma tyThreeNeTwo : ¬ ("3" : String) = "2" := by decide

lemma runTestBatches_ok (evalBatch : ℕ → Except String BatchStats) :
    ∀ bs : List ℕ, (∀ b ∈ bs, ∃ s, evalBatch b = .ok s) →
      ∀ lm am : AverageMeter, ∃ a, runTestBatches evalBatch bs lm am = .ok a := by
  intro bs
  induction bs with
  | nil => exact fun _ _ am => ⟨am.avg, rfl⟩
  | cons b t ih =>
    intro h lm am
    obtain ⟨s, hs⟩ := h b (List.mem_cons_self b t)
    obtain ⟨a, ha⟩ := ih (fun x hx => h x (List.mem_cons_of_mem b hx))
      (lm.update s.loss s.size) (am.update s.top1 s.size)
    exact ⟨a, by rw [runTestBatches, hs]; exact ha⟩

/-! ## Claim theorems -/

/-- C1: the claim says every step at a test boundary (`(step+1) % test_freq == 0`
or the final step) records its metrics, runs the evaluation and persists a
checkpoint.  The code does none of this: the unconditional `continue` at
line 156 skips lines 159–209 on every iteration, so even at a boundary step
(step 399 with the default `test_freq = 400` is one) no meter is updated, no
test runs, no checkpoint is written and the best score never changes. -/
theorem testBranchUnreachable :
    isTestBoundary 400 120000 399 = true ∧
    ∀ (oc : Autodiff) (cfg : Config) (li : Tensor) (lg : List ℕ)
      (ui : Tensor) (ug : List ℕ) (st : LoopState),
      (mainIteration oc cfg li lg ui ug st).testsRun = st.testsRun ∧
      (mainIteration oc cfg li lg ui ug st).store = st.store ∧
      (mainIteration oc cfg li lg ui ug st).dataTimes = st.dataTimes ∧
      (mainIteration oc cfg li lg ui ug st).batchTimes = st.batchTimes ∧
      (mainIteration oc cfg li lg ui ug st).labelLosses = st.labelLosses ∧
      (mainIteration oc cfg li lg ui ug st).unlabelLosses = st.unlabelLosses ∧
      (mainIteration oc cfg li lg ui ug st).labelAcc = st.labelAcc ∧
      (mainIteration oc cfg li lg ui ug st).unlabelAcc = st.unlabelAcc ∧
      (mainIteration oc cfg li lg ui ug st).bestAcc = st.bestAcc :=
  ⟨by decide, fun _ _ _ _ _ _ _ => ⟨rfl, rfl, rfl, rfl, rfl, rfl, rfl, rfl, rfl⟩⟩

/-- C2: the projection applied after the in-place update `target -= inner_lr
* grad` is exactly the spec's three policies — policy 0 clamps every entry to
[0,1] and divides each row by its sum, policy 1 zeroes negative entries and
divides each row by its sum, policy 2 zeroes negative entries without
renormalizing — and the final KL-divergence loss is computed from the
detached projected target. -/
theorem projectionMatchesSpecPolicies :
    (∀ (ilr : ℚ) (t g : List ℚ),
      refineRow "0" ilr t g = specPolicy0 (updateRow ilr t g) ∧
      refineRow "1" ilr t g = specPolicy1 (updateRow ilr t g) ∧
      refineRow "2" ilr t g = specPolicy2 (updateRow ilr t g)) ∧
    ∀ (oc : Autodiff) (ty : String) (ilr : ℚ) (ps : Params)
      (li : Tensor) (lg : List ℕ) (ui : Tensor) (ug : List ℕ),
      (trainIterationCore oc ty ilr ps li lg ui ug).pseudoGt
        = refine ty ilr ((oc.forward ps ui).map oc.softmaxRow)
            (oc.gradPseudo ps (oc.fastForward ps ilr li) lg ilr (oc.forward ps ui)) ∧
      (trainIterationCore oc ty ilr ps li lg ui ug).loss
        = oc.klDiv ((oc.forward ps ui).map oc.logSoftmaxRow)
            (detach (trainIterationCore oc ty ilr ps li lg ui ug).pseudoGt) := by
  constructor
  · intro ilr t g
    have hc : clamp01 = fun x : ℚ => if x < 0 then 0 else if 1 < x then 1 else x :=
      funext clamp01_eq_ite
    have hr : relu = fun x : ℚ => if x < 0 then 0 else x := funext relu_eq_ite
    refine ⟨?_, ?_, ?_⟩ <;>
      simp [refineRow, specPolicy0, specPolicy1, specPolicy2, specRenormalize,
            normalizeRow, hc, hr]
  · exact fun _ _ _ _ _ _ _ _ => ⟨rfl, rfl⟩

/-- C3: resuming is claimed to continue with the recorded best score `B`.
In fact, loading a checkpoint that this very script saved (keys `step`,
`model`, `classifier`, `best_acc`, `optimizer`) raises `KeyError: 'epoch'`
at the log line 86, because no `epoch` key is ever saved; and even apart
from that, `main` re-initializes its local `best_acc` to `0.` (line 92),
shadowing the module-level value the resume block loaded, so the tracked
best after a resume starts from 0, not from `B = 1/2`. -/
theorem resumeBestScoreDiscarded :
    resumeBlock (savedCheckpoint 5000 (1/2) "m" "c" "o") = Except.error "epoch" ∧
    (mainInitState 5000 [] ⟨none, none⟩).bestAcc = 0 ∧ ((1 : ℚ)/2 ≠ 0) := by
  refine ⟨rfl, rfl, by norm_num⟩

/-- C4 counterexample: the claim asserts every projected row under policy 0
or 1 lies in [0,1] and sums to 1 within 1e-5, with no precondition.  On the
batch with the single softmax row [1/2, 1/2], meta-gradient row [1, 1] and
inner rate 1, policy 1 clips the updated row [-1/2, -1/2] to [0, 0]; its sum
is 0, so the renormalized row is [0, 0] (a float run divides 0 by 0) and its
sum is 0, not within 1e-5 of 1. -/
theorem allClippedRowBreaksRowSum :
    refine "1" 1 [[1/2, 1/2]] [[1, 1]] = [[0, 0]] ∧
    ¬ (|(([0, 0] : List ℚ)).sum - 1| ≤ 1/100000) := by
  constructor
  · norm_num [refine, refineRow, updateRow, normalizeRow, relu, clamp01]
  · norm_num

/-- C4 amended: for policies 0 and 1, every projected row whose clipped
version has positive sum has all entries in [0,1] and sums to exactly 1
(hence within the 1e-5 tolerance); rows clipped to all zeros are excluded. -/
theorem refinedRowsFormDistribution (ty : String) (hty : ty = "0" ∨ ty = "1")
    (ilr : ℚ) (t g : List ℚ) (hpos : 0 < (clippedRow ty ilr t g).sum) :
    (∀ y ∈ refineRow ty ilr t g, 0 ≤ y ∧ y ≤ 1) ∧ (refineRow ty ilr t g).sum = 1 := by
  rw [refineRow_eq_normalize_clipped ty hty]
  exact ⟨normalizeRow_mem_unit _ (clippedRow_nonneg ty ilr t g) hpos,
         normalizeRow_sum _ (ne_of_gt hpos)⟩

/-- C4 witness: policy 1, inner rate 1/10, row [1/2, 1/2], gradient [1, -1]:
the clipped sum is positive and the projected row sums to 1. -/
theorem refinedRowsFormDistribution_witness :
    (refineRow "1" (1/10) [1/2, 1/2] [1, -1]).sum = 1 :=
  (refinedRowsFormDistribution "1" (Or.inr rfl) (1/10) [1/2, 1/2] [1, -1]
    (by rw [clippedRow, if_neg tyOneNeZero]; norm_num [updateRow, relu, max_eq_right])).2

/-- C5: the schedule is advanced exactly once per executed iteration (the
`continue` at line 156 comes after `lr_scheduler.step()` at line 152), and
with total_steps = 100000, lr = 0.1, lr_decay = 0.1 the rate held during
step s is 0.1 below 50000, 0.01 from 50000 to 74999, and 0.001 from 75000. -/
theorem lrScheduleConcrete :
    (∀ (oc : Autodiff) (cfg : Config) (li : Tensor) (lg : List ℕ)
       (ui : Tensor) (ug : List ℕ) (st : LoopState),
       (mainIteration oc cfg li lg ui ug st).schedEpoch = st.schedEpoch + 1) ∧
    ∀ s : ℕ,
      (s < 50000 → lrAtStep (1/10) (1/10) 100000 s = 1/10) ∧
      (50000 ≤ s → s < 75000 → lrAtStep (1/10) (1/10) 100000 s = 1/100) ∧
      (75000 ≤ s → lrAtStep (1/10) (1/10) 100000 s = 1/1000) := by
  refine ⟨fun _ _ _ _ _ _ _ => rfl, fun s => ⟨?_, ?_, ?_⟩⟩
  · intro h
    have h1 : ¬ (50000 : ℕ) ≤ s := by omega
    have h2 : ¬ (75000 : ℕ) ≤ s := by omega
    norm_num [lrAtStep, multiStepLR, milestones, countMilestones, h1, h2]
  · intro h h2
    have hb : ¬ (75000 : ℕ) ≤ s := by omega
    norm_num [lrAtStep, multiStepLR, milestones, countMilestones, h, hb]
  · intro h
    have h1 : (50000 : ℕ) ≤ s := by omega
    norm_num [lrAtStep, multiStepLR, milestones, countMilestones, h, h1]

/-- C5 witness: the schedule evaluated at steps 0, 50000 and 75000. -/
theorem lrScheduleConcrete_witness :
    lrAtStep (1/10) (1/10) 100000 0 = 1/10 ∧
    lrAtStep (1/10) (1/10) 100000 50000 = 1/100 ∧
    lrAtStep (1/10) (1/10) 100000 75000 = 1/1000 :=
  ⟨(lrScheduleConcrete.2 0).1 (by norm_num),
   (lrScheduleConcrete.2 50000).2.1 (by norm_num) (by norm_num),
   (lrScheduleConcrete.2 75000).2.2 (by norm_num)⟩

/-- C6: the checkpoint bundle holds exactly the keys step, model, classifier,
best_acc and optimizer — no learning-rate-scheduler position — and a run
restored at step 50000 keeps rate 1/100 at global step 75000 where a fresh
run has already decayed to 1/1000; the resumed run reaches its next decay
only at global step 50000 + 50000 = 100000.  Persist-then-restore is not a
round trip for the schedule. -/
theorem checkpointOmitsScheduleState :
    (∀ (step : ℕ) (bestAcc : ℚ) (m c o : String),
       (savedCheckpoint step bestAcc m c o).map Prod.fst
         = ["step", "model", "classifier", "best_acc", "optimizer"]) ∧
    resumedLrAt (1/10) (1/10) 100000 50000 75000 = 1/100 ∧
    lrAtStep (1/10) (1/10) 100000 75000 = 1/1000 ∧
    resumedLrAt (1/10) (1/10) 100000 50000 75000 ≠ lrAtStep (1/10) (1/10) 100000 75000 ∧
    resumedLrAt (1/10) (1/10) 100000 50000 99999 = 1/100 ∧
    resumedLrAt (1/10) (1/10) 100000 50000 100000 = 1/1000 := by
  refine ⟨fun _ _ _ _ _ => rfl, ?_, ?_, ?_, ?_, ?_⟩ <;>
    norm_num [resumedLrAt, lrAtStep, multiStepLR, milestones, countMilestones]

/-- C7: two executions of one training iteration that differ only in the
ground-truth labels of the unlabeled batch produce identical refined pseudo
labels, losses and parameter/optimizer updates, and identical loop states:
`unlabel_gt` is read nowhere between lines 113 and 157. -/
theorem unlabelGtNoninterference (oc : Autodiff) (ty : String) (ilr : ℚ) (ps : Params)
    (li : Tensor) (lg : List ℕ) (ui : Tensor) (gt1 gt2 : List ℕ)
    (cfg : Config) (st : LoopState) :
    trainIterationCore oc ty ilr ps li lg ui gt1
      = trainIterationCore oc ty ilr ps li lg ui gt2 ∧
    mainIteration oc cfg li lg ui gt1 st = mainIteration oc cfg li lg ui gt2 st :=
  ⟨rfl, rfl⟩

/-- C8 counterexample: when evaluation of the first held-out batch raises,
`test()` propagates the exception with both networks still in `eval` mode —
there is no try/finally in lines 212–245, so training mode is not restored
on the exception path. -/
theorem testRunExceptionLeavesEvalMode :
    (testRun (fun _ => Except.error "device error") [0]).1 = ⟨Mode.eval, Mode.eval⟩ ∧
    Mode.eval ≠ Mode.train :=
  ⟨rfl, by decide⟩

/-- C8 amended: `test()` switches both networks to inference mode and, on
NORMAL completion of the held-out loop, restores training mode on both and
returns the accuracy average; on an exception no restoration happens. -/
theorem testRunRestoresTrainOnSuccess (evalBatch : ℕ → Except String BatchStats)
    (batches : List ℕ) (hok : ∀ b ∈ batches, ∃ s, evalBatch b = .ok s) :
    (testRun evalBatch batches).1 = ⟨Mode.train, Mode.train⟩ ∧
    ∃ a, (testRun evalBatch batches).2 = .ok a := by
  obtain ⟨a, ha⟩ := runTestBatches_ok evalBatch batches hok AverageMeter.init AverageMeter.init
  exact ⟨by simp [testRun, ha], a, by simp [testRun, ha]⟩

/-- C8 witness: a two-batch held-out set whose evaluations both succeed ends
with both networks back in training mode. -/
theorem testRunRestoresTrainOnSuccess_witness :
    (testRun (fun _ => Except.ok ⟨1, 1/2, 128⟩) [0, 1]).1 = ⟨Mode.train, Mode.train⟩ :=
  (testRunRestoresTrainOnSuccess (fun _ => Except.ok ⟨1, 1/2, 128⟩) [0, 1]
    (fun b _ => ⟨⟨1, 1/2, 128⟩, rfl⟩)).1

/-- C9: `'3'` is among the accepted argparse choices, and under it no
projection branch fires: the supervisory target is exactly
`target - inner_lr * grad`, which on the softmax row [1/2, 1/2] with
gradient [1, 1] and inner rate 1 has negative entries and row sum -1 ≠ 1. -/
theorem policy3SkipsProjection :
    "3" ∈ typeChoices ∧
    (∀ (ilr : ℚ) (t g : List ℚ), refineRow "3" ilr t g = updateRow ilr t g) ∧
    refine "3" 1 [[1/2, 1/2]] [[1, 1]] = [[-(1/2), -(1/2)]] ∧
    (-(1/2) : ℚ) < 0 ∧ ([-(1/2), -(1/2)] : List ℚ).sum ≠ 1 := by
  refine ⟨by decide, fun ilr t g => by simp [refineRow], ?_, by norm_num, by norm_num⟩
  norm_num [refine, refineRow, updateRow, tyThreeNeZero, tyThreeNeOne, tyThreeNeTwo]

/-- C10: the claim (and the source comment at line 206) says the running
training meters are reset after each evaluation+checkpoint cycle.  The
"reset" line 207 binds two NEW local names `losses` and `acc` to fresh
AverageMeters: none of the six training meters of `main` is changed, and a
meter holding two folded batches still has count 256 ≠ 0 afterwards.  (The
whole block is in any case unreachable, see C1.) -/
theorem resetCreatesFreshLocalsOnly :
    (∀ (st : LoopState) (a : ℚ),
      (testAndSaveBlock st a).dataTimes = st.dataTimes ∧
      (testAndSaveBlock st a).batchTimes = st.batchTimes ∧
      (testAndSaveBlock st a).labelLosses = st.labelLosses ∧
      (testAndSaveBlock st a).unlabelLosses = st.unlabelLosses ∧
      (testAndSaveBlock st a).labelAcc = st.labelAcc ∧
      (testAndSaveBlock st a).unlabelAcc = st.unlabelAcc) ∧
    (testAndSaveBlock
      { mainInitState 0 [] ⟨none, none⟩ with
        labelLosses := (AverageMeter.init.update (7/10) 128).update (4/5) 128 }
      (9/10)).labelLosses.count = 256 ∧ (256 : ℕ) ≠ 0 :=
  ⟨fun _ _ => ⟨rfl, rfl, rfl, rfl, rfl, rfl⟩, rfl, by decide⟩

end MetaPL
